import Mathlib

/-
Shallow embedding of the single-instance gateway lock subsystem of
straja-agent (src/src/agents/identity-file.ts, lock section).

Conventions of the embedding:
* JavaScript numbers that matter here (pids, millisecond timestamps,
  /proc start-time counters) are integers in practice; they are modelled
  as `Int`.  `NaN` / non-finite results of `parseInt` / `Date.parse` are
  modelled as `none` of an `Option Int`.
* Effectful reads (filesystem, /proc, process table, clock) are modelled
  as explicit inputs: a `ProcEnv` of probe functions, a `ReadResult` for
  each lock-file read, an `Option Int` for each `fs.stat` mtime, and an
  explicit `now` for `Date.now()`.
* The `while (Date.now() - startedAt < timeoutMs)` guard of the acquire
  loop is modelled by a finite trace of per-iteration environments; an
  exhausted trace corresponds to the timeout elapsing.
-/

namespace GatewayLock

/-- Platforms as far as the lock code distinguishes them
(`platform === "linux"` is the only test made). -/
inductive Platform
  | linux
  | darwin
  | win32
deriving DecidableEq, Repr

/-- JSON values, as produced by a successful `JSON.parse`.  JSON numbers
are modelled as `Int` (the payload fields checked here are integer pids
and start-time counters). -/
inductive JsonValue
  | null
  | bool (b : Bool)
  | num (n : Int)
  | str (s : String)
  | arr (xs : List JsonValue)
  | obj (fields : List (String × JsonValue))

/-- Property lookup on a parsed JSON object: `JSON.parse` keeps the last
occurrence of a duplicated key, so the last binding wins. -/
def lookupField (fields : List (String × JsonValue)) (key : String) : Option JsonValue :=
  match fields with
  | [] => none
  | (k, v) :: rest =>
    match lookupField rest key with
    | some v2 => some v2
    | none => if k = key then some v else none

/-- `LockPayload` from identity-file.ts: the sole persisted record.
`startTime` is optional. -/
structure LockPayload where
  pid : Int
  createdAt : String
  configPath : String
  startTime : Option Int
deriving DecidableEq, Repr

/-- Outcome of one `fs.readFile` + `JSON.parse` of the lock file.
`absent` and `readError` both make `readFile` throw; `invalidJson` makes
`JSON.parse` throw; all three are caught by `readLockPayload`. -/
inductive ReadResult
  | absent
  | readError
  | invalidJson
  | json (v : JsonValue)

/-- The field validation of `readLockPayload` (identity-file.ts lines
523-539): `pid` must be a number, `createdAt` and `configPath` strings; a
`startTime` of any non-number type is dropped (`undefined`), not
rejected.  Property access on a non-object JSON value yields `undefined`
(or throws, for `null`), so every non-object parse result is rejected. -/
def validateLockPayload (v : JsonValue) : Option LockPayload :=
  match v with
  | .obj fields =>
    match lookupField fields "pid" with
    | some (.num pid) =>
      match lookupField fields "createdAt" with
      | some (.str createdAt) =>
        match lookupField fields "configPath" with
        | some (.str configPath) =>
          let startTime : Option Int :=
            match lookupField fields "startTime" with
            | some (.num n) => some n
            | _ => none
          some ⟨pid, createdAt, configPath, startTime⟩
        | _ => none
      | _ => none
    | _ => none
  | _ => none

/-- `readLockPayload` (identity-file.ts lines 520-543): any exception in
the read or the parse is caught and turned into `null`. -/
def readLockPayload : ReadResult → Option LockPayload
  | .json v => validateLockPayload v
  | _ => none

/-- Whether the lock file exists on disk given the outcome of reading
it: only `absent` means no file. -/
def readResultFileExists : ReadResult → Bool
  | .absent => false
  | _ => true

/-- Owner status derived on every contention check. -/
inductive LockOwnerStatus
  | alive
  | dead
  | unknown
deriving DecidableEq, Repr

/-- The OS-dependent probe functions used by the liveness check, as an
explicit environment: `pidAlive` is `isPidAlive` (signal-0 probe of the
process table), `linuxStartTime` is `readLinuxStartTime` (field 22 of
`/proc/pid/stat`, `none` on read failure or non-finite parse), and
`linuxCmdline` is `readLinuxCmdline` (`none` on read failure). -/
structure ProcEnv where
  pidAlive : Int → Bool
  linuxStartTime : Int → Option Int
  linuxCmdline : Int → Option (List String)

/-- `normalizeProcArg`: backslashes to slashes, then lower-case. -/
def normalizeProcArg (arg : String) : String :=
  (arg.replace "\\" "/").toLower

/-- `isGatewayArgv` (identity-file.ts lines 446-465). -/
def isGatewayArgv (args : List String) : Bool :=
  let normalized := args.map normalizeProcArg
  if ¬ normalized.contains "gateway" then
    false
  else
    let entryCandidates : List String :=
      ["dist/index.js", "dist/entry.js", "openclaw.mjs", "scripts/run-node.mjs", "src/index.ts"]
    if normalized.any (fun arg => entryCandidates.any (fun entry => arg.endsWith entry)) then
      true
    else
      let exe := normalized.headD ""
      exe.endsWith "/openclaw" || exe = "openclaw"

/-- `resolveGatewayOwnerStatus` (identity-file.ts lines 492-518): dead if
the pid is not in the process table; alive off linux; on linux, compare
start-time counters when the payload recorded one (`Number.isFinite`
rejects exactly a missing `startTime` in this model), else fall back to
the command-line heuristic. -/
def resolveGatewayOwnerStatus (env : ProcEnv) (pid : Int) (payload : Option LockPayload)
    (platform : Platform) : LockOwnerStatus :=
  if ¬ env.pidAlive pid then
    .dead
  else if platform ≠ .linux then
    .alive
  else
    match payload.bind LockPayload.startTime with
    | some st =>
      match env.linuxStartTime pid with
      | none => .unknown
      | some cur => if cur = st then .alive else .dead
    | none =>
      match env.linuxCmdline pid with
      | none => .unknown
      | some args => if isGatewayArgv args then .alive else .dead

/-- Inputs consumed by one pass through the contention (`EEXIST`) branch
of the acquire loop: the outcome of re-reading the lock file, the
outcome of `fs.stat` on it (`some mtimeMs`, or `none` when the stat
threw), and the current clock value used by the two staleness
comparisons. -/
structure ContInput where
  readResult : ReadResult
  statMtime : Option Int
  now : Int

/-- What one contention pass decides to do before the next loop
iteration: `removeAndRetry` is `fs.rm(lockPath, force) ; continue` (no
sleep); `sleepAndRetry` is the `setTimeout(pollIntervalMs)` sleep. -/
inductive StepAction
  | removeAndRetry
  | sleepAndRetry
deriving DecidableEq, Repr

/-- The staleness computation of the acquire loop (identity-file.ts
lines 613-625): first try `Date.parse(createdAt)` (skipped when
`createdAt` is the empty string, which is falsy; a non-finite parse
yields `false`); whenever that did not conclude stale, consult the lock
file's mtime, a failed stat counting as stale. -/
def lockIsStale (dateParse : String → Option Int) (staleMs : Int)
    (lastPayload : Option LockPayload) (statMtime : Option Int) (now : Int) : Bool :=
  let staleByCreatedAt :=
    match lastPayload with
    | some pl =>
      if pl.createdAt ≠ "" then
        match dateParse pl.createdAt with
        | some t => decide (now - t > staleMs)
        | none => false
      else false
    | none => false
  if staleByCreatedAt then
    true
  else
    match statMtime with
    | some m => decide (now - m > staleMs)
    | none => true

/-- One pass through the `catch` branch of the acquire loop for an
`EEXIST` collision (identity-file.ts lines 603-632): re-read the
payload, derive the owner status (`unknown` without a truthy pid — note
pid 0 is falsy), reclaim a dead owner at once, run the staleness test
only for a non-`alive` status, and otherwise sleep.  Returns the action
and the new `lastPayload`. -/
def contentionStep (env : ProcEnv) (platform : Platform) (dateParse : String → Option Int)
    (staleMs : Int) (inp : ContInput) : StepAction × Option LockPayload :=
  let lastPayload := readLockPayload inp.readResult
  let ownerPidTruthy : Bool :=
    match lastPayload with
    | some pl => pl.pid ≠ 0
    | none => false
  let ownerStatus :=
    match lastPayload with
    | some pl =>
      if pl.pid ≠ 0 then resolveGatewayOwnerStatus env pl.pid (some pl) platform
      else LockOwnerStatus.unknown
    | none => LockOwnerStatus.unknown
  if ownerStatus = .dead ∧ ownerPidTruthy = true then
    (.removeAndRetry, lastPayload)
  else if ownerStatus ≠ .alive then
    if lockIsStale dateParse staleMs lastPayload inp.statMtime inp.now then
      (.removeAndRetry, lastPayload)
    else
      (.sleepAndRetry, lastPayload)
  else
    (.sleepAndRetry, lastPayload)

/-- Outcome of the `fs.open(lockPath, "wx")` attempt at the top of one
loop iteration: success, or an exception with an error code. -/
inductive OpenResult
  | ok
  | err (code : String)

/-- Per-iteration environment of the acquire loop; `cont` is consulted
only when the open fails with `EEXIST`. -/
structure IterEnv where
  openResult : OpenResult
  cont : ContInput

/-- The observable shape of a thrown `GatewayLockError`: the class sets
`name` to the literal string `GatewayLockError`; `cause` is the wrapped
original error's code when one was passed to the constructor. -/
structure GatewayLockErrorV where
  name : String
  message : String
  cause : Option String
deriving DecidableEq, Repr

/-- Constructor of `GatewayLockError` (identity-file.ts lines 423-431). -/
def mkGatewayLockError (message : String) (cause : Option String) : GatewayLockErrorV :=
  ⟨"GatewayLockError", message, cause⟩

/-- The ` (pid N)` fragment of the timeout message: present only for a
truthy `lastPayload?.pid` (pid 0 yields the empty fragment). -/
def timeoutOwnerFragment (lastPayload : Option LockPayload) : String :=
  match lastPayload with
  | some pl =>
    if pl.pid ≠ 0 then " (pid " ++ toString pl.pid ++ ")"
    else ""
  | none => ""

/-- The message of the acquisition-timeout error (identity-file.ts
lines 636-637). -/
def timeoutMessage (lastPayload : Option LockPayload) (timeoutMs : Int) : String :=
  "gateway already running" ++ timeoutOwnerFragment lastPayload ++
    "; lock timeout after " ++ toString timeoutMs ++ "ms"

/-- The message of the wrapped non-contention failure (identity-file.ts
line 600). -/
def acquireFailMessage (lockPath : String) : String :=
  "failed to acquire gateway lock at " ++ lockPath

/-- Result of a full run of the acquire loop.  `sleeps` counts the
`pollIntervalMs` sleeps taken before the run ended. -/
inductive AcquireOutcome
  | acquired (sleeps : Nat)
  | failed (e : GatewayLockErrorV) (sleeps : Nat)
deriving DecidableEq, Repr

/-- The retry loop of `acquireGatewayLock` (identity-file.ts lines
576-637) over a finite trace of iteration environments; an empty trace
is the `Date.now() - startedAt < timeoutMs` guard failing, after which
the timeout error is thrown.  A non-`EEXIST` open failure is rethrown
wrapped at once; an `EEXIST` failure runs the contention pass. -/
def acquireLoop (env : ProcEnv) (platform : Platform) (dateParse : String → Option Int)
    (staleMs timeoutMs : Int) (lockPath : String) :
    List IterEnv → Option LockPayload → Nat → AcquireOutcome
  | [], lastPayload, sleeps =>
    .failed (mkGatewayLockError (timeoutMessage lastPayload timeoutMs) none) sleeps
  | iter :: rest, _lastPayload, sleeps =>
    match iter.openResult with
    | .ok => .acquired sleeps
    | .err code =>
      if code ≠ "EEXIST" then
        .failed (mkGatewayLockError (acquireFailMessage lockPath) (some code)) sleeps
      else
        match contentionStep env platform dateParse staleMs iter.cont with
        | (.removeAndRetry, pl) =>
          acquireLoop env platform dateParse staleMs timeoutMs lockPath rest pl sleeps
        | (.sleepAndRetry, pl) =>
          acquireLoop env platform dateParse staleMs timeoutMs lockPath rest pl (sleeps + 1)

/-- The filesystem state the lock subsystem observes: whether the lock
file is present at its resolved path. -/
structure FsState where
  lockFileExists : Bool
deriving DecidableEq, Repr

/-- `handle.close()`: may reject (modelled by `closeFails`). -/
def closeHandle (closeFails : Bool) : Except String Unit :=
  if closeFails then .error "EBADF" else .ok ()

/-- `fs.rm(lockPath, force?)`: removing an absent file is an `ENOENT`
error unless `force` is set, in which case absence is ignored. -/
def rmLock (force : Bool) (st : FsState) : Except String FsState :=
  if st.lockFileExists = false ∧ force = false then
    .error "ENOENT"
  else
    .ok ⟨false⟩

/-- The `release` closure of the acquired handle (identity-file.ts
lines 592-595): `handle.close().catch(() => undefined)` then
`fs.rm(lockPath, force)`. -/
def release (closeFails : Bool) (st : FsState) : Except String FsState :=
  match closeHandle closeFails with
  | _ => rmLock true st

/-- `ForegroundStopResult` (identity-file.ts line 644). -/
inductive ForegroundStopResult
  | stopped
  | notRunning
  | noLock
deriving DecidableEq, Repr

/-- Signals the stopper attempts to deliver via `process.kill`. -/
inductive StopSignal
  | sigterm
  | sigkill
deriving DecidableEq, Repr

/-- Environment of one `tryStopForegroundGateway` run: the lock-file
read outcome, the probe environment, whether the SIGTERM `process.kill`
succeeds, the owner's liveness at each 100 ms poll (step 1 up to step
30), and whether the SIGKILL `process.kill` succeeds (its failure is
swallowed by the code, so it never influences the outcome). -/
structure StopEnv where
  readResult : ReadResult
  proc : ProcEnv
  termDelivered : Bool
  aliveAtPoll : Nat → Bool
  killDelivered : Bool

/-- Everything observable about one stopper run: the returned record,
whether the lock file exists afterwards, and the signals whose delivery
was attempted, in order. -/
structure StopOutput where
  result : ForegroundStopResult
  pid : Option Int
  lockFileExistsAfter : Bool
  signals : List StopSignal
deriving DecidableEq, Repr

/-- The grace-window wait loop (identity-file.ts lines 685-695):
`while (waited < 3000) { sleep 100; if (!isPidAlive(pid)) ... }` —
returns `true` when the owner was observed dead at one of the `fuel`
polls starting at `step`. -/
def stopWaitLoop (alive : Nat → Bool) : Nat → Nat → Bool
  | _, 0 => false
  | step, fuel + 1 =>
    if ¬ alive step then true else stopWaitLoop alive (step + 1) fuel

/-- `tryStopForegroundGateway` (identity-file.ts lines 656-708).  The
3000 ms window at 100 ms polls gives 30 liveness checks.  The SIGKILL
branch ignores `killDelivered` exactly as the code's empty `catch`
does, removes the lock unconditionally and reports `stopped`. -/
def tryStopForegroundGateway (platform : Platform) (env : StopEnv) : StopOutput :=
  match readLockPayload env.readResult with
  | none =>
    ⟨.noLock, none, readResultFileExists env.readResult, []⟩
  | some payload =>
    let status := resolveGatewayOwnerStatus env.proc payload.pid (some payload) platform
    if status = .dead then
      ⟨.notRunning, some payload.pid, false, []⟩
    else if env.termDelivered = false then
      ⟨.notRunning, some payload.pid, false, [.sigterm]⟩
    else if stopWaitLoop env.aliveAtPoll 1 30 then
      ⟨.stopped, some payload.pid, false, [.sigterm]⟩
    else
      ⟨.stopped, some payload.pid, false, [.sigterm, .sigkill]⟩

/-- Whether an optional JSON field holds a number (`typeof x === "number"`). -/
def isNumField : Option JsonValue → Bool
  | some (.num _) => true
  | _ => false

/-- Whether an optional JSON field holds a string (`typeof x === "string"`). -/
def isStrField : Option JsonValue → Bool
  | some (.str _) => true
  | _ => false

/-
Concrete fixtures used by witnesses and counterexamples.
`2020-01-01T00:00:00.000Z` parses to 1577836800000 ms.
-/

/-- A well-formed lock-file body without `startTime`. -/
def samplePayloadJson : JsonValue :=
  .obj [("pid", .num 100), ("createdAt", .str "2020-01-01T00:00:00.000Z"),
        ("configPath", .str "/cfg.json")]

/-- A well-formed lock-file body with `startTime` 42. -/
def samplePayloadJsonST : JsonValue :=
  .obj [("pid", .num 100), ("createdAt", .str "2020-01-01T00:00:00.000Z"),
        ("configPath", .str "/cfg.json"), ("startTime", .num 42)]

/-- The payload parsed from `samplePayloadJson`. -/
def samplePayload : LockPayload :=
  ⟨100, "2020-01-01T00:00:00.000Z", "/cfg.json", none⟩

/-- The payload parsed from `samplePayloadJsonST`. -/
def samplePayloadST : LockPayload :=
  ⟨100, "2020-01-01T00:00:00.000Z", "/cfg.json", some 42⟩

/-- A process table in which every pid exists but neither `/proc` read
succeeds. -/
def envAllAlive : ProcEnv := ⟨fun _ => true, fun _ => none, fun _ => none⟩

/-- A process table in which every pid exists and every start-time read
yields 7 (≠ the recorded 42: simulated pid reuse). -/
def envPidReuse : ProcEnv := ⟨fun _ => true, fun _ => some 7, fun _ => none⟩

/-- A process table with no live process at all. -/
def envNoPid : ProcEnv := ⟨fun _ => false, fun _ => none, fun _ => none⟩

/-- A clock in which every `Date.parse` yields the epoch value of the
sample `createdAt`. -/
def dateParse2020 : String → Option Int := fun _ => some 1577836800000

/-- Case split on the derived owner status: with a parseable payload
holding a truthy pid, the contention pass reclaims a dead owner at
once, sleeps for a live one, and gates an unknown one on staleness. -/
theorem contentionStep_eq (env : ProcEnv) (platform : Platform)
    (dp : String → Option Int) (staleMs : Int) (inp : ContInput) (pl : LockPayload)
    (hread : readLockPayload inp.readResult = some pl) (hpid : pl.pid ≠ 0) :
    contentionStep env platform dp staleMs inp =
      (match resolveGatewayOwnerStatus env pl.pid (some pl) platform with
       | .dead => (.removeAndRetry, some pl)
       | .alive => (.sleepAndRetry, some pl)
       | .unknown =>
         if lockIsStale dp staleMs (some pl) inp.statMtime inp.now then
           (.removeAndRetry, some pl)
         else
           (.sleepAndRetry, some pl)) := by
  unfold contentionStep
  rw [hread]
  simp only [hpid, if_true, ite_true, ne_eq, not_false_eq_true]
  cases hs : resolveGatewayOwnerStatus env pl.pid (some pl) platform <;>
    simp [hs]

/-- C1, counterexample: a contention check whose probe answers `alive`
(pid 100 exists, non-linux platform) on a lock whose `createdAt` age
(30001 ms) exceeds the 30000 ms stale threshold does NOT delete the
lock; the code sleeps one poll interval, because the staleness test is
gated on a non-`alive` owner status. -/
theorem C1_counterexample :
    resolveGatewayOwnerStatus envAllAlive 100 (some samplePayload) .darwin = .alive
    ∧ dateParse2020 samplePayload.createdAt = some 1577836800000
    ∧ ((1577836830001 : Int) - 1577836800000 > 30000)
    ∧ contentionStep envAllAlive .darwin dateParse2020 30000
        ⟨.json samplePayloadJson, some 1577836800000, 1577836830001⟩ =
        (.sleepAndRetry, some samplePayload) :=
  ⟨by decide, rfl, by decide, by decide⟩

/-- C1, amended: when the probe of the existing lock's owner returns
`alive`, acquire never deletes the lock file and never consults the
staleness computation; it sleeps one poll interval and retries, for
every clock value, every stat outcome and every stale threshold.
Age-based reclaim is reserved for non-`alive` statuses. -/
theorem C1_alive_never_reclaimed (env : ProcEnv) (platform : Platform)
    (dp : String → Option Int) (staleMs : Int) (inp : ContInput) (pl : LockPayload)
    (hread : readLockPayload inp.readResult = some pl) (hpid : pl.pid ≠ 0)
    (halive : resolveGatewayOwnerStatus env pl.pid (some pl) platform = .alive) :
    contentionStep env platform dp staleMs inp = (.sleepAndRetry, some pl) := by
  rw [contentionStep_eq env platform dp staleMs inp pl hread hpid, halive]

/-- C1, witness: the amended theorem applied to an alive owner of an
over-threshold lock with an over-threshold mtime. -/
theorem C1_alive_never_reclaimed_witness :
    contentionStep envAllAlive .darwin dateParse2020 30000
      ⟨.json samplePayloadJson, some 0, 1577836830001⟩ =
      (.sleepAndRetry, some samplePayload) :=
  C1_alive_never_reclaimed envAllAlive .darwin dateParse2020 30000
    ⟨.json samplePayloadJson, some 0, 1577836830001⟩ samplePayload
    rfl (by decide) (by decide)

/-- C2, counterexample: a contention check whose probe answers `unknown`
(linux, recorded start-time present, current start-time unreadable) on a
lock whose `createdAt` age exceeds the stale threshold DOES delete the
lock file and retry immediately — an unknown-status lock is reclaimed
when stale, so it is not treated identically to the alive case. -/
theorem C2_counterexample :
    resolveGatewayOwnerStatus envAllAlive 100 (some samplePayloadST) .linux = .unknown
    ∧ contentionStep envAllAlive .linux dateParse2020 30000
        ⟨.json samplePayloadJsonST, some 1577836800000, 1577836830001⟩ =
        (.removeAndRetry, some samplePayloadST) :=
  ⟨by decide, by decide⟩

/-- C2, amended: when the probe of the existing lock's owner returns
`unknown`, acquire never reclaims on the probe result alone: it runs the
staleness evaluation, sleeping one poll interval when the lock is not
stale (exactly as for `alive`) but deleting the lock file and retrying
immediately when the staleness evaluation marks it stale. -/
theorem C2_unknown_gated_on_staleness (env : ProcEnv) (platform : Platform)
    (dp : String → Option Int) (staleMs : Int) (inp : ContInput) (pl : LockPayload)
    (hread : readLockPayload inp.readResult = some pl) (hpid : pl.pid ≠ 0)
    (hunk : resolveGatewayOwnerStatus env pl.pid (some pl) platform = .unknown) :
    contentionStep env platform dp staleMs inp =
      (if lockIsStale dp staleMs (some pl) inp.statMtime inp.now then
        (.removeAndRetry, some pl)
      else
        (.sleepAndRetry, some pl)) := by
  rw [contentionStep_eq env platform dp staleMs inp pl hread hpid, hunk]

/-- C2, witness: the amended theorem applied to a fresh unknown-status
lock, which sleeps like the alive case. -/
theorem C2_unknown_gated_on_staleness_witness :
    contentionStep envAllAlive .linux dateParse2020 30000
      ⟨.json samplePayloadJsonST, some 1577836800000, 1577836801000⟩ =
      (.sleepAndRetry, some samplePayloadST) := by
  rw [C2_unknown_gated_on_staleness envAllAlive .linux dateParse2020 30000
    ⟨.json samplePayloadJsonST, some 1577836800000, 1577836801000⟩ samplePayloadST
    rfl (by decide) (by decide)]
  decide

/-- C3: on linux, for a pid that exists and a payload recording a finite
`startTime`, the probe answers `unknown` when the current start-time
counter is unreadable, `dead` when it reads a different value (pid
reuse), and `alive` when it matches; and a contention check on a lock
whose probe answers `dead` deletes the lock file and retries at once. -/
theorem C3_probe_start_time (env : ProcEnv) (pid : Int) (pl : LockPayload) (st : Int)
    (hexists : env.pidAlive pid = true) (hst : pl.startTime = some st) :
    (env.linuxStartTime pid = none →
      resolveGatewayOwnerStatus env pid (some pl) .linux = .unknown)
    ∧ (∀ cur, env.linuxStartTime pid = some cur → cur ≠ st →
      resolveGatewayOwnerStatus env pid (some pl) .linux = .dead)
    ∧ (∀ cur, env.linuxStartTime pid = some cur → cur = st →
      resolveGatewayOwnerStatus env pid (some pl) .linux = .alive)
    ∧ (∀ (dp : String → Option Int) (staleMs : Int) (inp : ContInput),
      readLockPayload inp.readResult = some pl → pl.pid = pid → pl.pid ≠ 0 →
      resolveGatewayOwnerStatus env pid (some pl) .linux = .dead →
      contentionStep env .linux dp staleMs inp = (.removeAndRetry, some pl)) := by
  refine ⟨?_, ?_, ?_, ?_⟩
  · intro h
    unfold resolveGatewayOwnerStatus
    simp [hexists, hst, h]
  · intro cur hcur hne
    unfold resolveGatewayOwnerStatus
    simp [hexists, hst, hcur, hne]
  · intro cur hcur heq
    subst heq
    unfold resolveGatewayOwnerStatus
    simp [hexists, hst, hcur]
  · intro dp staleMs inp hread hpe hpid hdead
    rw [contentionStep_eq env .linux dp staleMs inp pl hread hpid, hpe, hdead]

/-- C3, witness: with a recorded start-time of 42 and a current counter
of 7 for live pid 100, the probe answers `dead` and the contention check
reclaims the lock immediately. -/
theorem C3_probe_start_time_witness :
    resolveGatewayOwnerStatus envPidReuse 100 (some samplePayloadST) .linux = .dead
    ∧ contentionStep envPidReuse .linux dateParse2020 30000
        ⟨.json samplePayloadJsonST, some 1577836800000, 1577836801000⟩ =
        (.removeAndRetry, some samplePayloadST) := by
  have h := C3_probe_start_time envPidReuse 100 samplePayloadST 42 rfl rfl
  exact ⟨h.2.1 7 rfl (by decide),
    h.2.2.2 dateParse2020 30000
      ⟨.json samplePayloadJsonST, some 1577836800000, 1577836801000⟩
      rfl rfl (by decide) (h.2.1 7 rfl (by decide))⟩

/-- C4: a contention check whose probe answers `dead` deletes the lock
file and retries immediately with no sleep; a full acquire run whose
first iteration hits such a dead-owner collision and whose second open
succeeds finishes acquired with zero poll-interval sleeps. -/
theorem C4_dead_reclaimed_immediately (env : ProcEnv) (platform : Platform)
    (dp : String → Option Int) (staleMs timeoutMs : Int) (lockPath : String)
    (inp cont2 : ContInput) (pl : LockPayload)
    (hread : readLockPayload inp.readResult = some pl) (hpid : pl.pid ≠ 0)
    (hdead : resolveGatewayOwnerStatus env pl.pid (some pl) platform = .dead) :
    contentionStep env platform dp staleMs inp = (.removeAndRetry, some pl)
    ∧ acquireLoop env platform dp staleMs timeoutMs lockPath
        [⟨.err "EEXIST", inp⟩, ⟨.ok, cont2⟩] none 0 = .acquired 0 := by
  have hstep : contentionStep env platform dp staleMs inp = (.removeAndRetry, some pl) := by
    rw [contentionStep_eq env platform dp staleMs inp pl hread hpid, hdead]
  exact ⟨hstep, by simp [acquireLoop, hstep]⟩

/-- C4, witness: a lock held by pid 100 in an empty process table is
reclaimed at once and the next open wins with zero sleeps. -/
theorem C4_dead_reclaimed_immediately_witness :
    contentionStep envNoPid .linux dateParse2020 30000
      ⟨.json samplePayloadJson, some 0, 0⟩ = (.removeAndRetry, some samplePayload)
    ∧ acquireLoop envNoPid .linux dateParse2020 30000 5000 "/tmp/gw.lock"
        [⟨.err "EEXIST", ⟨.json samplePayloadJson, some 0, 0⟩⟩, ⟨.ok, ⟨.absent, none, 0⟩⟩]
        none 0 = .acquired 0 :=
  C4_dead_reclaimed_immediately envNoPid .linux dateParse2020 30000 5000 "/tmp/gw.lock"
    ⟨.json samplePayloadJson, some 0, 0⟩ ⟨.absent, none, 0⟩ samplePayload
    rfl (by decide) (by decide)

/-- C5, counterexample: on an unknown-status lock whose `createdAt` is
present, parses (to 1577836800000) and is fresh (age 1000 ms, threshold
30000 ms), the outcome still depends on the file's modification time:
an old mtime gets the lock deleted, a fresh mtime gets a sleep — so the
mtime fallback IS consulted although `createdAt` parsed to a valid
timestamp. -/
theorem C5_counterexample :
    dateParse2020 samplePayloadST.createdAt = some 1577836800000
    ∧ ((1577836801000 : Int) - 1577836800000 ≤ 30000)
    ∧ contentionStep envAllAlive .linux dateParse2020 30000
        ⟨.json samplePayloadJsonST, some 0, 1577836801000⟩ =
        (.removeAndRetry, some samplePayloadST)
    ∧ contentionStep envAllAlive .linux dateParse2020 30000
        ⟨.json samplePayloadJsonST, some 1577836800000, 1577836801000⟩ =
        (.sleepAndRetry, some samplePayloadST) :=
  ⟨rfl, by decide, by decide, by decide⟩

/-- C5, amended: in the staleness computation (reached for a non-alive
owner status), `createdAt` is preferred only in the sense that when it
is present, parses, and its age exceeds the threshold, the lock is
stale with no mtime consultation; in every other case — including a
`createdAt` that is present, valid and fresh — the modification-time
fallback is consulted and decides (with a failed stat counting as
stale). -/
theorem C5_staleness_order (env : ProcEnv) (platform : Platform)
    (dp : String → Option Int) (staleMs : Int) (inp : ContInput) (pl : LockPayload) (t : Int)
    (hread : readLockPayload inp.readResult = some pl) (hpid : pl.pid ≠ 0)
    (hunk : resolveGatewayOwnerStatus env pl.pid (some pl) platform = .unknown)
    (hca : pl.createdAt ≠ "") (hdp : dp pl.createdAt = some t) :
    (inp.now - t > staleMs →
      contentionStep env platform dp staleMs inp = (.removeAndRetry, some pl))
    ∧ (inp.now - t ≤ staleMs →
      contentionStep env platform dp staleMs inp =
        (match inp.statMtime with
         | some m =>
           if inp.now - m > staleMs then (.removeAndRetry, some pl)
           else (.sleepAndRetry, some pl)
         | none => (.removeAndRetry, some pl))) := by
  have key := contentionStep_eq env platform dp staleMs inp pl hread hpid
  rw [hunk] at key
  constructor
  · intro h
    have hl : lockIsStale dp staleMs (some pl) inp.statMtime inp.now = true := by
      simp [lockIsStale, hca, hdp, h]
    rw [key, hl]
    simp
  · intro h
    have hnot : ¬ (inp.now - t > staleMs) := not_lt.mpr h
    cases hm : inp.statMtime with
    | none =>
      have hl : lockIsStale dp staleMs (some pl) none inp.now = true := by
        simp [lockIsStale, hca, hdp]
      rw [key, hm, hl]
      simp
    | some m =>
      by_cases hmm : inp.now - m > staleMs
      · have hl : lockIsStale dp staleMs (some pl) (some m) inp.now = true := by
          simp [lockIsStale, hca, hdp, hnot, hmm]
        rw [key, hm, hl]
        simp [hmm]
      · have hl : lockIsStale dp staleMs (some pl) (some m) inp.now = false := by
          simp [lockIsStale, hca, hdp, hnot, hmm]
        rw [key, hm, hl]
        simp [hmm]

/-- C5, witness: the amended theorem on a lock whose `createdAt` age
exceeds the threshold, reclaimed without regard to the (fresh) mtime. -/
theorem C5_staleness_order_witness :
    contentionStep envAllAlive .linux dateParse2020 30000
      ⟨.json samplePayloadJsonST, some 1577836830001, 1577836830001⟩ =
      (.removeAndRetry, some samplePayloadST) :=
  (C5_staleness_order envAllAlive .linux dateParse2020 30000
    ⟨.json samplePayloadJsonST, some 1577836830001, 1577836830001⟩
    samplePayloadST 1577836800000
    rfl (by decide) (by decide) (by decide) rfl).1 (by decide)

/-- C10: when the staleness fallback's stat of the lock file fails (the
file vanished between the payload read and the stat), the lock counts
as stale: the contention check force-removes the lock path and retries
immediately without sleeping — here for an unknown-status owner whose
`createdAt` evidence did not already establish staleness. -/
theorem C10_stat_failure_stale (env : ProcEnv) (platform : Platform)
    (dp : String → Option Int) (staleMs : Int) (inp : ContInput) (pl : LockPayload)
    (hread : readLockPayload inp.readResult = some pl) (hpid : pl.pid ≠ 0)
    (hunk : resolveGatewayOwnerStatus env pl.pid (some pl) platform = .unknown)
    (hnc : pl.createdAt = "" ∨ dp pl.createdAt = none ∨
      ∀ t, dp pl.createdAt = some t → inp.now - t ≤ staleMs)
    (hstat : inp.statMtime = none) :
    contentionStep env platform dp staleMs inp = (.removeAndRetry, some pl) := by
  have key := contentionStep_eq env platform dp staleMs inp pl hread hpid
  rw [hunk] at key
  have hl : lockIsStale dp staleMs (some pl) inp.statMtime inp.now = true := by
    rw [hstat]
    rcases hnc with h | h | h
    · simp [lockIsStale, h]
    · simp [lockIsStale, h]
    · cases hdp : dp pl.createdAt with
      | none => simp [lockIsStale, hdp]
      | some t =>
        have := not_lt.mpr (h t hdp)
        simp [lockIsStale, hdp, this]
  rw [key, hl]
  simp

/-- C10, witness: fresh `createdAt`, vanished lock file at stat time,
reclaimed immediately. -/
theorem C10_stat_failure_stale_witness :
    contentionStep envAllAlive .linux dateParse2020 30000
      ⟨.json samplePayloadJsonST, none, 1577836801000⟩ =
      (.removeAndRetry, some samplePayloadST) :=
  C10_stat_failure_stale envAllAlive .linux dateParse2020 30000
    ⟨.json samplePayloadJsonST, none, 1577836801000⟩ samplePayloadST
    rfl (by decide) (by decide)
    (Or.inr (Or.inr (fun t ht => by
      have h : (1577836800000 : Int) = t := by
        simpa [dateParse2020] using ht
      subst h
      decide)))
    rfl

/-- The `name` of the error a failed acquire run threw, if it failed. -/
def outcomeErrorName : AcquireOutcome → Option String
  | .failed e _ => some e.name
  | .acquired _ => none

/-- C6, counterexample: an acquire run aborted by a non-`EEXIST`
filesystem failure and an acquire run that exhausts its timeout throw
errors of the same type — both are `GatewayLockError` instances with
the same `name`, so the two failures are not distinguished by a
distinct error type (only by `message` and by the `cause` field). -/
theorem C6_counterexample :
    acquireLoop envAllAlive .linux dateParse2020 30000 5000 "/tmp/gw.lock"
      [⟨.err "EACCES", ⟨.absent, none, 0⟩⟩] none 0 =
      .failed ⟨"GatewayLockError", "failed to acquire gateway lock at /tmp/gw.lock",
        some "EACCES"⟩ 0
    ∧ acquireLoop envAllAlive .linux dateParse2020 30000 5000 "/tmp/gw.lock"
        [] (some samplePayload) 0 =
      .failed ⟨"GatewayLockError",
        "gateway already running (pid 100); lock timeout after 5000ms", none⟩ 0
    ∧ outcomeErrorName (acquireLoop envAllAlive .linux dateParse2020 30000 5000 "/tmp/gw.lock"
        [⟨.err "EACCES", ⟨.absent, none, 0⟩⟩] none 0) =
      outcomeErrorName (acquireLoop envAllAlive .linux dateParse2020 30000 5000 "/tmp/gw.lock"
        [] (some samplePayload) 0) :=
  ⟨by decide, by decide, by decide⟩

/-- C6, amended: acquire reports both failure modes with the same error
class (`GatewayLockError`); they are distinguishable by content, not
type: a non-`EEXIST` filesystem error aborts immediately — no retry, no
sleep, the rest of the loop never runs — carrying the underlying error
as `cause`, while the timeout failure carries no `cause` and embeds the
last-seen owner pid in its message when a payload with a truthy pid was
read. -/
theorem C6_error_reporting (env : ProcEnv) (platform : Platform)
    (dp : String → Option Int) (staleMs timeoutMs : Int) (lockPath code : String)
    (cont : ContInput) (rest : List IterEnv) (lastPl : Option LockPayload)
    (sleeps : Nat) (pl : LockPayload) :
    (code ≠ "EEXIST" →
      acquireLoop env platform dp staleMs timeoutMs lockPath
        (⟨.err code, cont⟩ :: rest) lastPl sleeps =
        .failed ⟨"GatewayLockError", "failed to acquire gateway lock at " ++ lockPath,
          some code⟩ sleeps)
    ∧ (pl.pid ≠ 0 →
      acquireLoop env platform dp staleMs timeoutMs lockPath [] (some pl) sleeps =
        .failed ⟨"GatewayLockError",
          "gateway already running" ++ (" (pid " ++ toString pl.pid ++ ")") ++
            "; lock timeout after " ++ toString timeoutMs ++ "ms", none⟩ sleeps) := by
  constructor
  · intro h
    simp [acquireLoop, h, mkGatewayLockError, acquireFailMessage]
  · intro h
    simp [acquireLoop, mkGatewayLockError, timeoutMessage, timeoutOwnerFragment, h]

/-- C6, witness: the amended theorem at a concrete `EACCES` failure and
a concrete timed-out run whose last-seen owner was pid 100. -/
theorem C6_error_reporting_witness :
    acquireLoop envAllAlive .linux dateParse2020 30000 5000 "/p"
      [⟨.err "EACCES", ⟨.absent, none, 0⟩⟩] none 0 =
      .failed ⟨"GatewayLockError", "failed to acquire gateway lock at " ++ "/p",
        some "EACCES"⟩ 0
    ∧ acquireLoop envAllAlive .linux dateParse2020 30000 5000 "/p" [] (some samplePayload) 3 =
      .failed ⟨"GatewayLockError",
        "gateway already running" ++ (" (pid " ++ toString (100 : Int) ++ ")") ++
          "; lock timeout after " ++ toString (5000 : Int) ++ "ms", none⟩ 3 :=
  ⟨(C6_error_reporting envAllAlive .linux dateParse2020 30000 5000 "/p" "EACCES"
      ⟨.absent, none, 0⟩ [] none 0 samplePayload).1 (by decide),
   (C6_error_reporting envAllAlive .linux dateParse2020 30000 5000 "/p" "EACCES"
      ⟨.absent, none, 0⟩ [] none 3 samplePayload).2 (by decide)⟩

/-- A wait loop over an owner that stays alive at every poll never
observes a death. -/
theorem stopWaitLoop_all_alive (alive : Nat → Bool) (h : ∀ k, alive k = true) :
    ∀ (s f : Nat), stopWaitLoop alive s f = false := by
  intro s f
  induction f generalizing s with
  | zero => rfl
  | succ f ih => simp [stopWaitLoop, h, ih]

/-- C7: a stop run on a lock whose owner probes `alive`, accepts the
SIGTERM, and is still alive at every poll of the 3-second grace window
escalates: it attempts SIGTERM then SIGKILL (whether or not the SIGKILL
delivery succeeds — `killDelivered` is unconstrained), removes the lock
file unconditionally, and returns `stopped` with the owner pid; the
lock file is absent afterward. -/
theorem C7_stop_escalates (platform : Platform) (env : StopEnv) (pl : LockPayload)
    (hread : readLockPayload env.readResult = some pl)
    (halive : resolveGatewayOwnerStatus env.proc pl.pid (some pl) platform = .alive)
    (hterm : env.termDelivered = true)
    (hstill : ∀ k, env.aliveAtPoll k = true) :
    tryStopForegroundGateway platform env =
      ⟨.stopped, some pl.pid, false, [.sigterm, .sigkill]⟩ := by
  unfold tryStopForegroundGateway
  rw [hread]
  simp [halive, hterm, stopWaitLoop_all_alive env.aliveAtPoll hstill]

/-- C7, witness: a stubborn owner (alive at every poll) whose SIGKILL
delivery fails (`killDelivered := false`) still yields `stopped`, pid
100, both signals attempted, lock file gone. -/
theorem C7_stop_escalates_witness :
    tryStopForegroundGateway .darwin
      ⟨.json samplePayloadJson, envAllAlive, true, fun _ => true, false⟩ =
      ⟨.stopped, some 100, false, [.sigterm, .sigkill]⟩ :=
  C7_stop_escalates .darwin
    ⟨.json samplePayloadJson, envAllAlive, true, fun _ => true, false⟩
    samplePayload rfl (by decide) rfl (fun _ => rfl)

/-- C8: `release` never throws and is idempotent: whatever the prior
state of the lock file and whether or not the handle close fails, it
returns successfully with the lock file absent, and a second `release`
from that state returns successfully and leaves it absent — close
errors are swallowed, and the force flag is what absorbs the
already-absent case, which without it is an `ENOENT` error. -/
theorem C8_release_idempotent (c1 c2 : Bool) (st : FsState) :
    release c1 st = Except.ok ⟨false⟩
    ∧ release c2 ⟨false⟩ = Except.ok ⟨false⟩
    ∧ closeHandle true = Except.error "EBADF"
    ∧ rmLock false ⟨false⟩ = Except.error "ENOENT" := by
  refine ⟨?_, ?_, rfl, by simp [rmLock]⟩
  · simp [release, rmLock, closeHandle]
  · simp [release, rmLock, closeHandle]

/-- C8, witness: releasing with a failing close from a present lock
file succeeds leaving it absent, and releasing again from the absent
state succeeds identically. -/
theorem C8_release_idempotent_witness :
    release true ⟨true⟩ = Except.ok ⟨false⟩
    ∧ release false ⟨false⟩ = Except.ok ⟨false⟩ :=
  ⟨(C8_release_idempotent true false ⟨true⟩).1,
   (C8_release_idempotent true false ⟨true⟩).2.1⟩

/-- C9: `readLockPayload` yields `null` for an absent file, an
unreadable file, invalid JSON, a missing/non-numeric `pid`, a
missing/non-string `createdAt` and a missing/non-string `configPath`,
while a non-numeric `startTime` is silently dropped (payload accepted
with no start time); consequently a stop run on an existing but
malformed lock file returns `no-lock` with no pid, attempts no signal,
and leaves the malformed file in place. -/
theorem C9_payload_validation :
    (readLockPayload .absent = none ∧ readLockPayload .readError = none
      ∧ readLockPayload .invalidJson = none)
    ∧ (∀ fields, isNumField (lookupField fields "pid") = false →
      validateLockPayload (.obj fields) = none)
    ∧ (∀ fields, isStrField (lookupField fields "createdAt") = false →
      validateLockPayload (.obj fields) = none)
    ∧ (∀ fields, isStrField (lookupField fields "configPath") = false →
      validateLockPayload (.obj fields) = none)
    ∧ (∀ fields (p : Int) (c cp : String), lookupField fields "pid" = some (.num p) →
      lookupField fields "createdAt" = some (.str c) →
      lookupField fields "configPath" = some (.str cp) →
      isNumField (lookupField fields "startTime") = false →
      validateLockPayload (.obj fields) = some ⟨p, c, cp, none⟩)
    ∧ (∀ (platform : Platform) (env : StopEnv), readLockPayload env.readResult = none →
      readResultFileExists env.readResult = true →
      tryStopForegroundGateway platform env = ⟨.noLock, none, true, []⟩) := by
  refine ⟨⟨rfl, rfl, rfl⟩, ?_, ?_, ?_, ?_, ?_⟩
  · intro fields h
    cases hp : lookupField fields "pid" with
    | none => simp [validateLockPayload, hp]
    | some v =>
      cases v with
      | num n => rw [hp] at h; simp [isNumField] at h
      | null => simp [validateLockPayload, hp]
      | bool b => simp [validateLockPayload, hp]
      | str s => simp [validateLockPayload, hp]
      | arr xs => simp [validateLockPayload, hp]
      | obj fs => simp [validateLockPayload, hp]
  · intro fields h
    cases hp : lookupField fields "pid" with
    | none => simp [validateLockPayload, hp]
    | some v =>
      cases v with
      | num n =>
        cases hc : lookupField fields "createdAt" with
        | none => simp [validateLockPayload, hp, hc]
        | some w =>
          cases w with
          | str s => rw [hc] at h; simp [isStrField] at h
          | null => simp [validateLockPayload, hp, hc]
          | bool b => simp [validateLockPayload, hp, hc]
          | num m => simp [validateLockPayload, hp, hc]
          | arr xs => simp [validateLockPayload, hp, hc]
          | obj fs => simp [validateLockPayload, hp, hc]
      | null => simp [validateLockPayload, hp]
      | bool b => simp [validateLockPayload, hp]
      | str s => simp [validateLockPayload, hp]
      | arr xs => simp [validateLockPayload, hp]
      | obj fs => simp [validateLockPayload, hp]
  · intro fields h
    cases hp : lookupField fields "pid" with
    | none => simp [validateLockPayload, hp]
    | some v =>
      cases v with
      | num n =>
        cases hc : lookupField fields "createdAt" with
        | none => simp [validateLockPayload, hp, hc]
        | some w =>
          cases w with
          | str s =>
            cases hcp : lookupField fields "configPath" with
            | none => simp [validateLockPayload, hp, hc, hcp]
            | some u =>
              cases u with
              | str s2 => rw [hcp] at h; simp [isStrField] at h
              | null => simp [validateLockPayload, hp, hc, hcp]
              | bool b => simp [validateLockPayload, hp, hc, hcp]
              | num m => simp [validateLockPayload, hp, hc, hcp]
              | arr xs => simp [validateLockPayload, hp, hc, hcp]
              | obj fs => simp [validateLockPayload, hp, hc, hcp]
          | null => simp [validateLockPayload, hp, hc]
          | bool b => simp [validateLockPayload, hp, hc]
          | num m => simp [validateLockPayload, hp, hc]
          | arr xs => simp [validateLockPayload, hp, hc]
          | obj fs => simp [validateLockPayload, hp, hc]
      | null => simp [validateLockPayload, hp]
      | bool b => simp [validateLockPayload, hp]
      | str s => simp [validateLockPayload, hp]
      | arr xs => simp [validateLockPayload, hp]
      | obj fs => simp [validateLockPayload, hp]
  · intro fields p c cp hp hc hcp hst
    cases hs : lookupField fields "startTime" with
    | none => simp [validateLockPayload, hp, hc, hcp, hs]
    | some v =>
      cases v with
      | num n => rw [hs] at hst; simp [isNumField] at hst
      | null => simp [validateLockPayload, hp, hc, hcp, hs]
      | bool b => simp [validateLockPayload, hp, hc, hcp, hs]
      | str s => simp [validateLockPayload, hp, hc, hcp, hs]
      | arr xs => simp [validateLockPayload, hp, hc, hcp, hs]
      | obj fs => simp [validateLockPayload, hp, hc, hcp, hs]
  · intro platform env h hex
    simp [tryStopForegroundGateway, h, hex]

/-- C9, witness: a payload whose `startTime` is the string "bogus" is
accepted with the start time dropped, and a stop run over an invalid
JSON lock file reports `no-lock`, no pid, no signals, file intact. -/
theorem C9_payload_validation_witness :
    validateLockPayload (.obj [("pid", .num 100), ("createdAt", .str "t"),
      ("configPath", .str "/c"), ("startTime", .str "bogus")]) =
      some ⟨100, "t", "/c", none⟩
    ∧ tryStopForegroundGateway .linux
        ⟨.invalidJson, envAllAlive, true, fun _ => true, true⟩ =
        ⟨.noLock, none, true, []⟩ :=
  ⟨C9_payload_validation.2.2.2.2.1
      [("pid", .num 100), ("createdAt", .str "t"), ("configPath", .str "/c"),
        ("startTime", .str "bogus")] 100 "t" "/c" rfl rfl rfl (by decide),
   C9_payload_validation.2.2.2.2.2 .linux
      ⟨.invalidJson, envAllAlive, true, fun _ => true, true⟩ rfl rfl⟩

end GatewayLock
